import Mathlib

/-!
Verification of the CI wheel-reuse scripts
`.github/actions/reuse-old-whl/reuse_old_whl.py` and
`.github/actions/check-old-whl/reuse_old_whl.py`.

The scripts are sequential glue over git, the GitHub REST API, an S3-style
object store and archive tools.  The embedding represents the external world
(git results, API responses, storage probes) as explicit data in an
environment record, and every script function as a pure Lean function of
that data.  Python `str.split()` / `str.strip()` are modelled character by
character; the archive-manipulation step is modelled as operations on a
path-to-bytes association map.
-/

/-- ASCII whitespace as recognised by Python's `str.split()` / `str.strip()`
(space, tab, newline, carriage return, vertical tab, form feed). -/
def pyIsSpace (c : Char) : Bool :=
  c == ' ' || c == '\t' || c == '\n' || c == '\r' || c == '\x0b' || c == '\x0c'

/-- Python `s.strip()`: drop leading and trailing whitespace. -/
def pyStrip (s : String) : String :=
  ⟨(((s.data.dropWhile pyIsSpace).reverse).dropWhile pyIsSpace).reverse⟩

/-- Helper for `pySplit`: walk the characters, collecting the current word
in reverse in `acc`; whitespace runs end words, empty words are dropped. -/
def pySplitAux : List Char → List Char → List String
  | [], acc => if acc = [] then [] else [⟨acc.reverse⟩]
  | c :: cs, acc =>
    if pyIsSpace c then
      if acc = [] then pySplitAux cs [] else (⟨acc.reverse⟩ : String) :: pySplitAux cs []
    else
      pySplitAux cs (c :: acc)

/-- Python `s.split()` with no argument: split on runs of whitespace,
never producing empty tokens. -/
def pySplit (s : String) : List String :=
  pySplitAux s.data []

namespace ReuseOldWhl

/-- `FORCE_REBUILD_LABEL` from `reuse_old_whl.py`. -/
def FORCE_REBUILD_LABEL : String := "ci-force-rebuild"

/-- A label object of the GitHub API (only the `name` field is read). -/
structure Label where
  name : String

/-- A pull-request object of the GitHub API (the script reads `number`
and `labels`). -/
structure PullRequest where
  number : Nat
  labels : List Label

/-- Outcome of the `requests.get` probe of one storage URL: either a
response (status code and body bytes) or a raised `requests.RequestException`. -/
inductive ProbeOutcome where
  | resp (status : Nat) (content : List Nat)
  | exc
  deriving DecidableEq

/-- The external world a run of the script observes: the memoized git
results, the GitHub API responses, and the storage probe, by run id. -/
structure Env where
  merge_base : String
  head_sha : String
  pulls : List PullRequest
  diff_output : String
  runs_total_count : Nat
  runs : List Nat
  probe : Nat → ProbeOutcome

/-- `ok_changed_file` from `reuse-old-whl/reuse_old_whl.py`: a changed file
is allowed when it is a `.py` file under `torch/` but not under
`torch/csrc/`, or a `.py` file under `test/`. -/
def ok_changed_file (file : String) : Bool :=
  if file.startsWith "torch/" && file.endsWith ".py" && !(file.startsWith "torch/csrc/") then
    true
  else if file.startsWith "test/" && file.endsWith ".py" then
    true
  else
    false

/-- `is_main_branch`: true when the merge base equals the head commit. -/
def is_main_branch (env : Env) : Bool :=
  env.merge_base == env.head_sha

/-- Inner loop of `check_labels_for_pr`: scan one PR's labels for
`FORCE_REBUILD_LABEL`, returning at the first match. -/
def labelsLoop : List Label → Bool
  | [] => false
  | l :: rest => if l.name == FORCE_REBUILD_LABEL then true else labelsLoop rest

/-- Outer loop of `check_labels_for_pr`: scan the PRs associated with the
head commit; return true at the first PR carrying the label. -/
def prsLoop : List PullRequest → Bool
  | [] => false
  | pr :: rest => if labelsLoop pr.labels then true else prsLoop rest

/-- `check_labels_for_pr`: true when some PR associated with the head
commit carries the force-rebuild label. -/
def check_labels_for_pr (env : Env) : Bool :=
  prsLoop env.pulls

/-- Loop body of `check_changed_files`: return false at the first changed
file the allow-list rejects, true when the list is exhausted. -/
def filesLoop : List String → Bool
  | [] => true
  | f :: rest => if !(ok_changed_file f) then false else filesLoop rest

/-- `check_changed_files`: tokenize the raw `git diff --name-only` output
with `.strip().split()` and require every token to pass `ok_changed_file`. -/
def check_changed_files (diff_output : String) : Bool :=
  filesLoop (pySplit (pyStrip diff_output))

/-- Result of `find_old_whl`: the returned boolean, the bytes written to
`artifacts.zip` (if any), and the run ids probed against storage, in order. -/
structure FindResult where
  found : Bool
  saved : Option (List Nat)
  probed : List Nat
  deriving DecidableEq

/-- The candidate loop of `find_old_whl`: probe each run id in provider
order; on a 200 response write the body to `artifacts.zip` and return true
immediately; on any other status or on a `RequestException` continue with
the next candidate; return false when the candidates are exhausted. -/
def findLoop (probe : Nat → ProbeOutcome) : List Nat → FindResult
  | [] => ⟨false, none, []⟩
  | r :: rest =>
    match probe r with
    | .resp status content =>
      if status == 200 then
        ⟨true, some content, [r]⟩
      else
        let k := findLoop probe rest
        ⟨k.found, k.saved, r :: k.probed⟩
    | .exc =>
      let k := findLoop probe rest
      ⟨k.found, k.saved, r :: k.probed⟩

/-- `find_old_whl`: return false when `build_environment` is `None` or the
workflow-run query reports a zero total count; otherwise run the candidate
loop over the provider-returned runs. -/
def find_old_whl (env : Env) (build_environment : Option String) : FindResult :=
  match build_environment with
  | none => ⟨false, none, []⟩
  | some _ =>
    if env.runs_total_count == 0 then ⟨false, none, []⟩
    else findLoop env.probe env.runs

/-- Whether a probe outcome is the HTTP 200 success the loop accepts. -/
def isHit : ProbeOutcome → Bool
  | .resp status _ => status == 200
  | .exc => false

/-- The body persisted from a successful probe outcome. -/
def hitBody : ProbeOutcome → Option (List Nat)
  | .resp status content => if status == 200 then some content else none
  | .exc => none

/-- `can_use_old_whl`, the expression assigned in `__main__`:
not a trunk-branch run, all changed files allow-listed, no force-rebuild
label.  In the source the assigned variable is never read afterwards:
the guard that consulted it is commented out. -/
def can_use_old_whl (env : Env) : Bool :=
  !(is_main_branch env) && check_changed_files env.diff_output && !(check_labels_for_pr env)

/-- Observable outcome of a run of `__main__`: whether `reuse=true` was
emitted through `set_output`, and the process exit code.  Paths on which an
external command or an unhandled exception aborts the process are outside
this model. -/
structure MainResult where
  reuse_emitted : Bool
  exit_code : Nat
  deriving DecidableEq

/-- `__main__` of `reuse-old-whl/reuse_old_whl.py`: compute
`can_use_old_whl` (whose value the remaining code never reads — the guard
is commented out in the source), then: if `find_old_whl` fails, print and
`sys.exit(0)`; otherwise patch the artifact, emit `reuse=true` via
`set_output`, and fall off the end of the script (exit code 0). -/
def main_run (env : Env) (build_environment : Option String) : MainResult :=
  let _cuow := can_use_old_whl env
  if !(find_old_whl env build_environment).found then
    ⟨false, 0⟩
  else
    ⟨true, 0⟩

/-- A path-to-bytes finite map as an association list: the file entries of
an archive or of a directory tree. -/
abbrev FileMap := List (String × List Nat)

/-- Lookup of a path in a file map (first binding wins). -/
def fmGet : FileMap → String → Option (List Nat)
  | [], _ => none
  | (k, v) :: rest, p => if k == p then some v else fmGet rest p

/-- Store one file: replace the binding when the path is present, append
it otherwise.  This is the effect of extracting or adding one archive entry
with overwrite, or of copying one file over a directory tree. -/
def fmStore : FileMap → String → List Nat → FileMap
  | [], p, v => [(p, v)]
  | (k, w) :: rest, p, v =>
    if k == p then (k, v) :: rest else (k, w) :: fmStore rest p v

/-- Overlay `extra` onto `base`, entry by entry: the effect of `unzip -o`
into a non-empty directory, of `rsync` without `--delete`, and of `zip`
adding files to an existing archive. -/
def fmOverlay (base : FileMap) (extra : FileMap) : FileMap :=
  extra.foldl (fun acc kv => fmStore acc kv.1 kv.2) base

/-- Rename every entry of a tree under a path prefix: `zip -r arch dir`
invoked from the repository root stores each file of `dir` under the entry
name `dir/...`, so the whole tree is added with `dir ++ "/"` prepended. -/
def prefixKeys (pre : String) (fs : FileMap) : FileMap :=
  fs.map (fun kv => (pre ++ kv.1, kv.2))

/-- Effect of one pass of the per-wheel body of
`unzip_artifact_and_replace_files` on the wheel's entry map `w`, given the
working-tree files `torchSrc` (paths starting with `torch/`) and the wheel
file stem `stem`:
`unzip -o` extracts `w` into the fresh directory `artifacts/dist/{stem}`;
`rsync -avz torch artifacts/dist/{stem}` overlays `torchSrc` onto it;
`zip -r artifacts/dist/{stem}.zip artifacts/dist/{stem}` then adds that
directory tree to the still-existing renamed wheel archive, each entry
stored under the name `artifacts/dist/{stem}/...` because the path handed
to `zip` is relative to the repository root. -/
def patch_wheel (torchSrc : FileMap) (stem : String) (w : FileMap) : FileMap :=
  fmOverlay w (prefixKeys ("artifacts/dist/" ++ stem ++ "/") (fmOverlay w torchSrc))

/-- A trunk-branch run: merge base and head commit coincide, and storage
holds an artifact for the one candidate run. -/
def envTrunk : Env :=
  { merge_base := "abc", head_sha := "abc", pulls := [], diff_output := "",
    runs_total_count := 1, runs := [7], probe := fun _ => .resp 200 [1] }

/-- A PR-branch run whose PR carries the force-rebuild label, with an
artifact available in storage and an empty diff. -/
def envLabeled : Env :=
  { merge_base := "abc", head_sha := "def0",
    pulls := [⟨1, [⟨FORCE_REBUILD_LABEL⟩]⟩], diff_output := "",
    runs_total_count := 1, runs := [7], probe := fun _ => .resp 200 [1] }

/-- A storage probe where run 5 answers 404, run 7 answers 200, and every
other run raises a network exception. -/
def probeW : Nat → ProbeOutcome := fun n =>
  if n == 5 then .resp 404 [] else if n == 7 then .resp 200 [3] else .exc

/-- An environment whose provider returns candidates 5, 7, 9 probed by
`probeW`. -/
def envW : Env :=
  { merge_base := "m", head_sha := "h", pulls := [], diff_output := "",
    runs_total_count := 3, runs := [5, 7, 9], probe := probeW }

/-- A storage probe where run 1 raises a network exception and every other
run answers 200. -/
def probeExcW : Nat → ProbeOutcome := fun n =>
  if n == 1 then .exc else .resp 200 [9]

/-- A one-file wheel payload: `torch/a.py` holding byte 1. -/
def wheelEx : FileMap := [("torch/a.py", [1])]

/-- A working tree whose `torch/a.py` holds byte 2. -/
def srcEx : FileMap := [("torch/a.py", [2])]

end ReuseOldWhl

namespace CheckOldWhl

/-- `ok_changed_file` from the sibling `check-old-whl/reuse_old_whl.py`
(textually the same allow-list as the reuse-old-whl variant). -/
def ok_changed_file (file : String) : Bool :=
  if file.startsWith "torch/" && file.endsWith ".py" && !(file.startsWith "torch/csrc/") then
    true
  else if file.startsWith "test/" && file.endsWith ".py" then
    true
  else
    false

end CheckOldWhl

namespace ReuseOldWhl

/-- The allow-list rule exactly as the specification words it, for the
refinement comparison with `ok_changed_file`. -/
def allow_listed_spec (p : String) : Prop :=
  (p.startsWith "torch/" = true ∧ p.endsWith ".py" = true ∧
      ¬(p.startsWith "torch/csrc/" = true)) ∨
    (p.startsWith "test/" = true ∧ p.endsWith ".py" = true)

/-- C3: the allow-list predicate returns true exactly on the paths the
specification describes. -/
theorem ok_changed_file_spec (p : String) :
    ok_changed_file p = true ↔ allow_listed_spec p := by
  unfold ok_changed_file allow_listed_spec
  by_cases h1 : p.startsWith "torch/" = true <;>
    by_cases h2 : p.endsWith ".py" = true <;>
      by_cases h3 : p.startsWith "torch/csrc/" = true <;>
        by_cases h4 : p.startsWith "test/" = true <;>
          simp [h1, h2, h3, h4]

end ReuseOldWhl

/-- C9: the allow-list predicates of the two sibling scripts agree on
every path. -/
theorem ok_changed_file_variants_agree (p : String) :
    ReuseOldWhl.ok_changed_file p = CheckOldWhl.ok_changed_file p := rfl

namespace ReuseOldWhl

/-- C1: on a trunk-branch run (merge base equals head commit) with an
artifact present in storage, the script still emits `reuse=true`: the veto
expression evaluates to false but is never consulted, because the guard in
`__main__` is commented out. -/
theorem trunk_run_still_emits_reuse :
    is_main_branch envTrunk = true ∧ can_use_old_whl envTrunk = false ∧
      main_run envTrunk (some "linux-build") = ⟨true, 0⟩ :=
  ⟨rfl, rfl, rfl⟩

/-- C2: on a run whose PR carries `ci-force-rebuild`, with every changed
file allow-listed (empty diff) and an artifact present in storage, the
script still emits `reuse=true`: the label veto is computed into
`can_use_old_whl` but that value is never consulted. -/
theorem force_label_still_emits_reuse :
    check_labels_for_pr envLabeled = true ∧
      check_changed_files envLabeled.diff_output = true ∧
      can_use_old_whl envLabeled = false ∧
      main_run envLabeled (some "linux-build") = ⟨true, 0⟩ :=
  ⟨rfl, rfl, rfl, rfl⟩

/-- C7: when tokenizing the diff output yields no changed files,
`check_changed_files` returns true. -/
theorem check_changed_files_empty (diff_output : String)
    (h : pySplit (pyStrip diff_output) = []) :
    check_changed_files diff_output = true := by
  unfold check_changed_files
  rw [h]
  rfl

/-- Witness for C7 at the empty diff output. -/
theorem check_changed_files_empty_witness :
    pySplit (pyStrip "") = [] ∧ check_changed_files "" = true :=
  ⟨rfl, check_changed_files_empty "" rfl⟩

/-- `filesLoop` succeeds exactly when every listed file is allow-listed. -/
lemma filesLoop_true_iff (l : List String) :
    filesLoop l = true ↔ ∀ f ∈ l, ok_changed_file f = true := by
  induction l with
  | nil => simp [filesLoop]
  | cons f rest ih => cases h : ok_changed_file f <;> simp [filesLoop, h, ih]

/-- C10: `check_changed_files` splits the diff output on arbitrary
whitespace and returns true exactly when every resulting token is
allow-listed; a single path containing a space is classified as two
separate tokens. -/
theorem check_changed_files_whitespace_tokens :
    (∀ s, check_changed_files s = true ↔
        ∀ t ∈ pySplit (pyStrip s), ok_changed_file t = true) ∧
      pySplit (pyStrip "torch/my file.py") = ["torch/my", "file.py"] := by
  refine ⟨fun s => ?_, rfl⟩
  unfold check_changed_files
  exact filesLoop_true_iff _

/-- C8: every modelled path of `__main__` exits with code zero, the
"no old whl found" path included. -/
theorem main_run_exit_zero (env : Env) (be : Option String) :
    (main_run env be).exit_code = 0 := by
  cases h : (find_old_whl env be).found <;> simp [main_run, h]

/-- The candidate loop returns false, saves nothing and probes every
candidate when no probe answers 200. -/
lemma findLoop_all_miss (probe : Nat → ProbeOutcome) (l : List Nat)
    (h : ∀ x ∈ l, isHit (probe x) = false) :
    findLoop probe l = ⟨false, none, l⟩ := by
  induction l with
  | nil => rfl
  | cons r rest ih =>
    have hr := h r (by simp)
    have hrest : ∀ x ∈ rest, isHit (probe x) = false := fun x hx => h x (by simp [hx])
    cases hp : probe r with
    | resp status content =>
      have hs : (status == 200) = false := by simpa [isHit, hp] using hr
      simp [findLoop, hp, hs, ih hrest]
    | exc => simp [findLoop, hp, ih hrest]

/-- The candidate loop stops at the first 200, saves its body, and probes
no candidate past it. -/
lemma findLoop_first_hit (probe : Nat → ProbeOutcome) (l1 : List Nat) (r : Nat)
    (l2 : List Nat) (h1 : ∀ x ∈ l1, isHit (probe x) = false)
    (h2 : isHit (probe r) = true) :
    findLoop probe (l1 ++ r :: l2) = ⟨true, hitBody (probe r), l1 ++ [r]⟩ := by
  induction l1 with
  | nil =>
    cases hp : probe r with
    | resp status content =>
      have hs : (status == 200) = true := by simpa [isHit, hp] using h2
      simp [findLoop, hp, hs, hitBody]
    | exc => simp [isHit, hp] at h2
  | cons a rest ih =>
    have ha := h1 a (by simp)
    have hrest : ∀ x ∈ rest, isHit (probe x) = false := fun x hx => h1 x (by simp [hx])
    cases hp : probe a with
    | resp status content =>
      have hs : (status == 200) = false := by simpa [isHit, hp] using ha
      simp [findLoop, hp, hs, ih hrest]
    | exc => simp [findLoop, hp, ih hrest]

/-- C4: `find_old_whl` selects the first provider-returned candidate whose
probe answers 200, persists its body, probes nothing after it; and returns
false whenever no candidate's probe answers 200. -/
theorem find_old_whl_first_hit (env : Env) (be : String) (l1 : List Nat) (r : Nat)
    (l2 : List Nat) (hcount : env.runs_total_count ≠ 0)
    (hruns : env.runs = l1 ++ r :: l2)
    (h1 : ∀ x ∈ l1, isHit (env.probe x) = false)
    (h2 : isHit (env.probe r) = true) :
    find_old_whl env (some be) = ⟨true, hitBody (env.probe r), l1 ++ [r]⟩ ∧
      ∀ (env2 : Env) (be2 : Option String),
        (∀ x ∈ env2.runs, isHit (env2.probe x) = false) →
          (find_old_whl env2 be2).found = false := by
  constructor
  · have hc : (env.runs_total_count == 0) = false := by
      simpa using hcount
    simp [find_old_whl, hc, hruns, findLoop_first_hit _ _ _ _ h1 h2]
  · intro env2 be2 hmiss
    cases be2 with
    | none => rfl
    | some b =>
      by_cases hc : (env2.runs_total_count == 0) = true
      · simp [find_old_whl, hc]
      · simp [find_old_whl, hc, findLoop_all_miss _ _ hmiss]

/-- Witness for C4: candidates 5 (404), 7 (200), 9 (would raise); the hit
at 7 is persisted and 9 is never probed. -/
theorem find_old_whl_first_hit_witness :
    envW.runs_total_count ≠ 0 ∧
      find_old_whl envW (some "linux-build") = ⟨true, hitBody (envW.probe 7), [5] ++ [7]⟩ :=
  ⟨by decide,
    (find_old_whl_first_hit envW "linux-build" [5] 7 [9] (by decide) rfl
        (by decide) (by decide)).1⟩

/-- C5: a `RequestException` while probing one candidate is absorbed: the
loop's verdict and saved body are those of the remaining candidates, and
the erroring candidate merely prepends to the probed list. -/
theorem findLoop_exception_continues (probe : Nat → ProbeOutcome) (r : Nat)
    (rest : List Nat) (h : probe r = ProbeOutcome.exc) :
    (findLoop probe (r :: rest)).found = (findLoop probe rest).found ∧
      (findLoop probe (r :: rest)).saved = (findLoop probe rest).saved ∧
      (findLoop probe (r :: rest)).probed = r :: (findLoop probe rest).probed := by
  simp [findLoop, h]

/-- Witness for C5: candidate 1 raises, candidate 2 still gets probed
(and in fact succeeds). -/
theorem findLoop_exception_continues_witness :
    probeExcW 1 = ProbeOutcome.exc ∧
      ((findLoop probeExcW (1 :: [2])).found = (findLoop probeExcW [2]).found ∧
        (findLoop probeExcW (1 :: [2])).saved = (findLoop probeExcW [2]).saved ∧
        (findLoop probeExcW (1 :: [2])).probed = 1 :: (findLoop probeExcW [2]).probed) :=
  ⟨rfl, findLoop_exception_continues probeExcW 1 [2] rfl⟩

/-- C6: the wheel-patch pass is not idempotent.  Because `zip -r` adds the
extracted-and-overlaid tree to the still-existing wheel archive under the
`artifacts/dist/{stem}/` entry prefix, a second pass adds a doubly-prefixed
copy that the first pass did not contain: applying the patch twice to a
one-file wheel yields a payload that differs byte-for-byte from one
application at the path `artifacts/dist/W/artifacts/dist/W/torch/a.py`. -/
theorem patch_wheel_not_idempotent :
    fmGet (patch_wheel srcEx "W" (patch_wheel srcEx "W" wheelEx))
        "artifacts/dist/W/artifacts/dist/W/torch/a.py" = some [2] ∧
      fmGet (patch_wheel srcEx "W" wheelEx)
        "artifacts/dist/W/artifacts/dist/W/torch/a.py" = none := by
  constructor <;> rfl

end ReuseOldWhl
